import Mathlib

/-!
Shallow embedding of the Shop API handler (src/handler.ts) of the API-Shop
repository.

The handler is a CRUD facade over three DynamoDB tables: the Shop (catalog)
table, the Accounts table and the GamingSystems table.  The stored records are
schemaless attribute maps over dynamic (JSON-like) values, and the handler is
JavaScript, so we model values by the inductive type DVal below (including a
NaN value, since parseInt can produce it) and a record by an association list
of attribute name / value pairs.

Effects are embedded by explicit state passing:
  - a table is a list of records; a DynamoDB GetCommand with Key ID=id is a
    lookup of the first record whose ID attribute is the string id;
  - a paginated Scan is a list of pages (each page a list of records); the
    do/while loop of the handler, which re-issues the scan while a
    LastEvaluatedKey continuation token is returned, becomes structural
    recursion over the page list (the token is present exactly while pages
    remain);
  - wall-clock timestamps, generated UUIDs and the S3 image pipeline results
    are injected as parameters;
  - a thrown JavaScript exception is an Except.error; the surrounding
    try/catch of each handler function turns it into a 500 response.
-/

/-- Dynamic (JSON / DynamoDB document) value, as seen by the JavaScript
handler code. -/
inductive DVal where
  | null : DVal
  | nan : DVal
  | bool (b : Bool) : DVal
  | num (n : Int) : DVal
  | str (s : String) : DVal
  | list (xs : List DVal) : DVal
  | map (m : List (String × DVal)) : DVal
deriving Repr

/-- A stored record (or a JSON request body): an attribute map. -/
abbrev Item := List (String × DVal)

/-- First-match association-list lookup: JavaScript property read on an
object, attribute read on a DynamoDB document item. -/
def lookupAttr (it : Item) (k : String) : Option DVal :=
  match it with
  | [] => none
  | (k2, v) :: rest => if k2 = k then some v else lookupAttr rest k

/-- JavaScript truthiness of a value. -/
def truthy : DVal → Bool
  | .null => false
  | .nan => false
  | .bool b => b
  | .num n => n != 0
  | .str s => s != ""
  | .list _ => true
  | .map _ => true

/-- Truthiness of a possibly-absent (undefined) value. -/
def truthyO : Option DVal → Bool
  | none => false
  | some v => truthy v

mutual
/-- JavaScript Array.prototype.toString / join(",") of a list of values
(null and undefined elements render as the empty string). -/
def jsToStrList : List DVal → String
  | [] => ""
  | [x] => jsToStrElem x
  | x :: y :: xs => jsToStrElem x ++ "," ++ jsToStrList (y :: xs)

/-- String conversion of one array element inside Array.prototype.toString. -/
def jsToStrElem : DVal → String
  | .null => ""
  | .nan => "NaN"
  | .bool b => cond b "true" "false"
  | .num n => toString n
  | .str s => s
  | .list xs => jsToStrList xs
  | .map _ => "[object Object]"
end

/-- JavaScript String(v) conversion. -/
def jsToStr : DVal → String
  | .null => "null"
  | .nan => "NaN"
  | .bool b => cond b "true" "false"
  | .num n => toString n
  | .str s => s
  | .list xs => jsToStrList xs
  | .map _ => "[object Object]"

/-- String conversion of a possibly-undefined value used as a property key
(JavaScript converts the key with ToString; undefined keys the property
named "undefined"). -/
def jsKey : Option DVal → String
  | none => "undefined"
  | some v => jsToStr v

/-- JavaScript property read v[k] for a non-numeric string key k: a lookup on
an object, undefined on primitives and arrays, a TypeError on null.  (We only
ever read UUID-shaped or alphabetic keys, so numeric string indexing of
strings/arrays does not arise.) -/
def propGet : DVal → String → Except Unit (Option DVal)
  | .null, _ => .error ()
  | .map m, k => .ok (lookupAttr m k)
  | _, _ => .ok none

/-- Substring test, JavaScript String.prototype.includes. -/
def strContains (s sub : String) : Bool :=
  (List.range (s.length + 1)).any fun i => (s.drop i).startsWith sub

/-- JavaScript v.includes(id) for a string needle id: element equality on an
array, substring containment on a string, and a TypeError (no includes
method) on every other value. -/
def jsIncludes : DVal → String → Except Unit Bool
  | .list xs, id => .ok (xs.any fun v => match v with | .str s => s == id | _ => false)
  | .str s, id => .ok (strContains s id)
  | _, _ => .error ()

/-- The separator-join of a list of strings (JavaScript Array.join). -/
def joinSep (sep : String) : List String → String
  | [] => ""
  | [x] => x
  | x :: y :: xs => x ++ sep ++ joinSep sep (y :: xs)

/-- Entry pushed onto the accountsWithAccess blocker list: the ID and Email
attributes of the account record (the TypeScript cast to string does not
change the runtime value, so they stay possibly-absent dynamic values). -/
structure AccountRef where
  ID : Option DVal
  Email : Option DVal
deriving Repr

/-- Entry pushed onto the gamingSystemsRequiringItem blocker list. -/
structure SystemRef where
  ID : Option DVal
  Name : Option DVal
deriving Repr

/-- Loop body of the Accounts scan of deleteProduct (handler.ts lines
840-851): does this account block deletion of shop item id owned by gaming
system gamingSystemId?  Mirrors
  accessMap && accessMap[gamingSystemId] && accessMap[gamingSystemId].includes(id)
with the JavaScript dynamic semantics: a missing or falsy Access attribute,
or a missing or falsy per-system entry, means no relation; calling includes
on a value with no such method throws. -/
def accountBlocks (gamingSystemId id : String) (account : Item) : Except Unit Bool :=
  match lookupAttr account "Access" with
  | none => .ok false
  | some access =>
    if truthy access then
      match propGet access gamingSystemId with
      | .error e => .error e
      | .ok none => .ok false
      | .ok (some entry) =>
        if truthy entry then jsIncludes entry id else .ok false
    else .ok false

/-- The blocker-list entry built for a blocking account. -/
def accountRefOf (account : Item) : AccountRef :=
  ⟨lookupAttr account "ID", lookupAttr account "Email"⟩

/-- One page of the Accounts scan: fold the loop body over the page in order,
accumulating blocker entries; a thrown exception aborts the whole scan. -/
def scanAccountsPage (gamingSystemId id : String) : List Item → Except Unit (List AccountRef)
  | [] => .ok []
  | a :: rest =>
    match accountBlocks gamingSystemId id a, scanAccountsPage gamingSystemId id rest with
    | .error e, _ => .error e
    | .ok _, .error e => .error e
    | .ok b, .ok tail => .ok (if b then accountRefOf a :: tail else tail)

/-- The full paginated Accounts scan (handler.ts lines 824-855): the do/while
loop re-issues the ScanCommand with the continuation token while one is
returned, so it consumes every page in order. -/
def scanAccountsPages (gamingSystemId id : String) : List (List Item) → Except Unit (List AccountRef)
  | [] => .ok []
  | p :: ps =>
    match scanAccountsPage gamingSystemId id p, scanAccountsPages gamingSystemId id ps with
    | .error e, _ => .error e
    | .ok _, .error e => .error e
    | .ok xs, .ok ys => .ok (xs ++ ys)

/-- Server-side filter of the GamingSystems scan,
FilterExpression RequiredShopItem = :shopItemId with a string parameter:
true exactly when the attribute is present, a string, and equal. -/
def systemMatches (id : String) (sys : Item) : Bool :=
  match lookupAttr sys "RequiredShopItem" with
  | some (.str s) => s == id
  | _ => false

/-- The blocker-list entry built for a dependent gaming system. -/
def systemRefOf (sys : Item) : SystemRef :=
  ⟨lookupAttr sys "ID", lookupAttr sys "Name"⟩

/-- The full paginated GamingSystems scan (handler.ts lines 861-890), driven
to exhaustion like the Accounts scan; the filter runs server side, the loop
just accumulates ID and Name of every matching system. -/
def scanSystemsPages (id : String) : List (List Item) → List SystemRef
  | [] => []
  | p :: ps => (p.filter (systemMatches id)).map systemRefOf ++ scanSystemsPages id ps

/-- Rendering of one Name element inside Array.prototype.join: undefined and
null elements join as the empty string, every other value via its element
string conversion. -/
def displayName : Option DVal → String
  | none => ""
  | some v => jsToStrElem v

/-- The errors array assembled for a refused delete (handler.ts lines
894-903). -/
def conflictErrors (systems : List SystemRef) (accounts : List AccountRef) : List String :=
  (if systems.length > 0 then
    ["This shop item is required by the following gaming system(s): "
      ++ joinSep ", " (systems.map fun s => displayName s.Name)
      ++ ". Remove the RequiredShopItem setting from these gaming systems before deleting."]
   else []) ++
  (if accounts.length > 0 then
    [toString accounts.length
      ++ " account(s) still have access to this shop item. Remove access from these accounts before deleting."]
   else [])

/-- Response body shapes returned by the handler functions we embed. -/
inductive Body where
  | errMsg (error : String)
  | product (it : Item)
  | conflictDelete (error message : String) (accounts : List AccountRef)
      (gamingSystems : List SystemRef)
  | deleted (message : String) (deletedProduct : Item)
  | internal (error operation : String)
deriving Repr

/-- An API Gateway proxy result (the fixed CORS headers are constant and
elided; the body is kept structured rather than JSON-serialised). -/
structure Response where
  statusCode : Nat
  body : Body
deriving Repr

/-- Does attribute k of the record hold exactly the string s?  This is
DynamoDB key/attribute equality against a string parameter: an absent
attribute or one of another type is not equal. -/
def attrIsStr (it : Item) (k s : String) : Bool :=
  match lookupAttr it k with
  | some (.str t) => t == s
  | _ => false

/-- DynamoDB point lookup on the Shop table with Key ID = id (string). -/
def shopGet (shop : List Item) (id : String) : Option Item :=
  shop.find? fun it => attrIsStr it "ID" id

/-- Effect of a DeleteCommand with Key ID = id on the Shop table (the key is
unique in a real table, so removing every record with that key is the
removal of the one record). -/
def shopErase (shop : List Item) (id : String) : List Item :=
  shop.filter fun it => !(attrIsStr it "ID" id)

/-- getProduct (handler.ts lines 297-314): point lookup, 404 when absent,
200 with the record when present. -/
def getProduct (id : String) (shop : List Item) : Response :=
  match shopGet shop id with
  | none => ⟨404, .errMsg "Product not found"⟩
  | some it => ⟨200, .product it⟩

/-- The database state a deleteProduct invocation reads: the Shop table as
seen by the initial GetCommand, and the page sequences the two scans
receive. -/
structure Db where
  shop : List Item
  accountsPages : List (List Item)
  gamingSystemsPages : List (List Item)

/-- Everything observable about one deleteProduct invocation: the HTTP
response, the three collections afterwards (the handler never writes the
Accounts or GamingSystems tables, so those components are always returned
unchanged), whether a DeleteCommand was issued, and whether the S3 artifact
cleanup (deleteProductFolder) ran. -/
structure DeleteOutcome where
  resp : Response
  shopAfter : List Item
  accountsAfter : List (List Item)
  gamingSystemsAfter : List (List Item)
  deleteIssued : Bool
  cleanupCalled : Bool
deriving Repr

/-- deleteProduct (handler.ts lines 803-940).  shopAtDelete is the Shop table
contents at the moment the conditioned DeleteCommand executes; a concurrent
removal between the initial lookup and the delete makes it differ from
db.shop, and the sequential case is shopAtDelete = db.shop.  A scan exception
is caught by the outer try/catch: its name is not
ConditionalCheckFailedException, so handleError returns 500. -/
def deleteProduct (id : String) (db : Db) (shopAtDelete : List Item) : DeleteOutcome :=
  match shopGet db.shop id with
  | none =>
    ⟨⟨404, .errMsg "Product not found"⟩, shopAtDelete,
      db.accountsPages, db.gamingSystemsPages, false, false⟩
  | some product =>
    let gamingSystemId := jsKey (lookupAttr product "GamingSystemID")
    match scanAccountsPages gamingSystemId id db.accountsPages with
    | .error _ =>
      ⟨⟨500, .internal "Internal Server Error" "deleteProduct"⟩, shopAtDelete,
        db.accountsPages, db.gamingSystemsPages, false, false⟩
    | .ok accountsWithAccess =>
      let gamingSystemsRequiringItem := scanSystemsPages id db.gamingSystemsPages
      if accountsWithAccess.length > 0 ∨ gamingSystemsRequiringItem.length > 0 then
        ⟨⟨409, .conflictDelete "Cannot delete product"
            (joinSep " " (conflictErrors gamingSystemsRequiringItem accountsWithAccess))
            accountsWithAccess gamingSystemsRequiringItem⟩, shopAtDelete,
          db.accountsPages, db.gamingSystemsPages, false, false⟩
      else
        match shopGet shopAtDelete id with
        | none =>
          ⟨⟨404, .errMsg "Product not found"⟩, shopAtDelete,
            db.accountsPages, db.gamingSystemsPages, true, false⟩
        | some removed =>
          ⟨⟨200, .deleted "Product deleted successfully" removed⟩,
            shopErase shopAtDelete id,
            db.accountsPages, db.gamingSystemsPages, true, true⟩

/-- JavaScript delete obj[k]: the key is removed (a JSON object holds each
key at most once; filtering every occurrence coincides on such records). -/
def removeAttr (it : Item) (k : String) : Item :=
  it.filter fun kv => kv.1 != k

/-- JavaScript assignment obj[k] = v: replace the value in place when the key
exists, append the key otherwise. -/
def setAttr (it : Item) (k : String) (v : DVal) : Item :=
  match it with
  | [] => [(k, v)]
  | (k2, v2) :: rest => if k2 = k then (k2, v) :: rest else (k2, v2) :: setAttr rest k v

/-- Effect of the UpdateCommand expression SET k1 = :v1, k2 = :v2, ... built
by updateProduct from the keys of the patch object: each listed attribute is
set on the stored record, in order. -/
def applyPatch (it : Item) (patch : Item) : Item :=
  match patch with
  | [] => it
  | (k, v) :: rest => applyPatch (setAttr it k v) rest

/-- Replace the record with key ID = id by the updated record (DynamoDB
UpdateCommand result on the keyed table). -/
def shopReplace (shop : List Item) (id : String) (newIt : Item) : List Item :=
  shop.map fun it => if attrIsStr it "ID" id then newIt else it

/-- The 1MB pre-upload size check (imageBase64.length * 3) / 4 > 1048576 in
exact rational arithmetic; reading .length of a non-string value gives
undefined and the NaN comparison is false. -/
def imageTooLarge : Option DVal → Bool
  | some (.str s) => s.length * 3 > 4 * 1048576
  | _ => false

/-- Outcome of one updateProduct invocation: response plus the Shop table
afterwards. -/
structure UpdateOutcome where
  resp : Response
  shopAfter : List Item
deriving Repr

/-- updateProduct (handler.ts lines 650-752).  now is the wall-clock ISO
timestamp taken during the call; uploadResult stands for the S3 image
pipeline outcome (Buffer decoding and uploadProductImage, whose failures the
inner catch turns into a 500) and is only consulted when the body carries a
truthy imageBase64.  A ConditionalCheckFailedException from the
existence-conditioned UpdateCommand becomes 404. -/
def updateProduct (id : String) (updateData : Item) (shop : List Item)
    (now : String) (uploadResult : Except String String) : UpdateOutcome :=
  let imgStep : Except Response Item :=
    if truthyO (lookupAttr updateData "imageBase64") then
      if imageTooLarge (lookupAttr updateData "imageBase64") then
        .error ⟨400, .errMsg "Image file too large (max 1MB)"⟩
      else
        match shopGet shop id with
        | none => .error ⟨404, .errMsg "Product not found"⟩
        | some _ =>
          match uploadResult with
          | .error _ => .error ⟨500, .internal "Failed to upload image" "updateProduct"⟩
          | .ok path =>
            .ok (removeAttr (removeAttr (removeAttr
                  (setAttr updateData "Image" (.str path))
                  "imageBase64") "imageFilename") "imageType")
    else
      .ok (removeAttr (removeAttr updateData "imageFilename") "imageType")
  match imgStep with
  | .error r => ⟨r, shop⟩
  | .ok d1 =>
    let patch := setAttr (removeAttr (removeAttr d1 "ID") "CreatedAt") "UpdatedAt" (.str now)
    match shopGet shop id with
    | none => ⟨⟨404, .errMsg "Product not found"⟩, shop⟩
    | some it =>
      let newItem := applyPatch it patch
      ⟨⟨200, .product newItem⟩, shopReplace shop id newItem⟩

/-- The six valid product item types (handler.ts line 540). -/
def validTypes : List String := ["Maps", "Classes", "Spells", "Races", "Modules", "Shop"]

/-- Hexadecimal digit, either case. -/
def hexDigit (c : Char) : Bool :=
  "0123456789abcdefABCDEF".contains c

/-- The UUID shape test of createProduct, the case-insensitive regular
expression 8-4-4-4-12 of hex digits anchored at both ends. -/
def uuidLike (s : String) : Bool :=
  match s.splitOn "-" with
  | [a, b, c, d, e] =>
    a.length == 8 && b.length == 4 && c.length == 4 && d.length == 4 && e.length == 12
      && (a ++ b ++ c ++ d ++ e).toList.all hexDigit
  | _ => false

/-- Validation of one entry of the Items array (handler.ts lines 541-567):
reports the first 400 error string, none when the entry passes; reading a
property of a null entry throws. -/
def validateItem (item : DVal) : Except Unit (Option String) :=
  match propGet item "Type" with
  | .error e => .error e
  | .ok tO =>
    if !truthyO tO
        || !(match tO with | some (.str t) => validTypes.contains t | _ => false) then
      .ok (some "Invalid item Type")
    else
      match propGet item "ID" with
      | .error e => .error e
      | .ok idO =>
        let needsId :=
          match tO with
          | some (.str t) => t == "Maps" || t == "Modules" || t == "Shop"
          | _ => false
        if needsId && !truthyO idO then .ok (some "Missing ID for item")
        else if truthyO idO && !uuidLike (jsKey idO) then .ok (some "Invalid ID format")
        else .ok none

/-- The for-of validation loop over the Items array: first failing entry
decides the 400 response. -/
def validateItems : List DVal → Except Unit (Option String)
  | [] => .ok none
  | item :: rest =>
    match validateItem item with
    | .error e => .error e
    | .ok (some msg) => .ok (some msg)
    | .ok none => validateItems rest

/-- Leading decimal digits of a character list. -/
def leadDigits : List Char → List Char
  | [] => []
  | c :: cs => if c.isDigit then c :: leadDigits cs else []

/-- JavaScript parseInt on a string: skip leading spaces, optional sign, then
the leading run of digits; NaN when there is none. -/
def parseIntStr (s : String) : DVal :=
  let cs := s.toList.dropWhile fun c => c == ' '
  match cs with
  | '-' :: r =>
    let ds := leadDigits r
    if ds.isEmpty then .nan
    else .num (-(ds.foldl (fun acc c => acc * 10 + ((c.toNat : Int) - 48)) 0))
  | '+' :: r =>
    let ds := leadDigits r
    if ds.isEmpty then .nan
    else .num (ds.foldl (fun acc c => acc * 10 + ((c.toNat : Int) - 48)) 0)
  | r =>
    let ds := leadDigits r
    if ds.isEmpty then .nan
    else .num (ds.foldl (fun acc c => acc * 10 + ((c.toNat : Int) - 48)) 0)

/-- parseInt(v.toString()) as applied to the Price field. -/
def jsParseInt (v : DVal) : DVal := parseIntStr (jsToStr v)

/-- JavaScript a || b with a constant fallback. -/
def jsOrDefault (v : Option DVal) (d : DVal) : DVal :=
  match v with
  | none => d
  | some x => if truthy x then x else d

/-- JavaScript nullish coalescing a ?? b. -/
def jsNullish (v : Option DVal) (d : DVal) : DVal :=
  match v with
  | none => d
  | some .null => d
  | some x => x

/-- Outcome of one createProduct invocation. -/
structure CreateOutcome where
  resp : Response
  shopAfter : List Item
deriving Repr

/-- createProduct (handler.ts lines 521-647).  genId is the UUID generated
when the body supplies no truthy ID, now the wall-clock timestamp,
uploadResult the image pipeline outcome (consulted only for a truthy
imageBase64).  The document-client marshaller rejects a NaN Price and the
table key schema requires a string ID, so either condition makes the
PutCommand throw an error other than ConditionalCheckFailedException,
ending in handleError (500).  A ConditionalCheckFailedException of the
attribute_not_exists(ID) condition becomes 409. -/
def createProduct (productData : Item) (shop : List Item)
    (genId now : String) (uploadResult : Except String String) : CreateOutcome :=
  if !truthyO (lookupAttr productData "Name")
      || (match lookupAttr productData "Price" with
          | none => true | some .null => true | some _ => false)
      || !truthyO (lookupAttr productData "GamingSystemID")
      || !truthyO (lookupAttr productData "Items") then
    ⟨⟨400, .errMsg "Missing required fields"⟩, shop⟩
  else
    match lookupAttr productData "Items" with
    | some (.list xs) =>
      if xs.length == 0 then ⟨⟨400, .errMsg "Items must be a non-empty array"⟩, shop⟩
      else
        match validateItems xs with
        | .error _ => ⟨⟨500, .internal "Internal Server Error" "createProduct"⟩, shop⟩
        | .ok (some msg) => ⟨⟨400, .errMsg msg⟩, shop⟩
        | .ok none =>
          let idV : DVal := jsOrDefault (lookupAttr productData "ID") (.str genId)
          let imageStep : Except Response DVal :=
            if truthyO (lookupAttr productData "imageBase64") then
              if imageTooLarge (lookupAttr productData "imageBase64") then
                .error ⟨400, .errMsg "Image file too large (max 1MB)"⟩
              else
                match uploadResult with
                | .error _ => .error ⟨500, .internal "Failed to upload image" "createProduct"⟩
                | .ok path => .ok (.str path)
            else
              .ok (jsOrDefault (lookupAttr productData "Image") (.str ""))
          match imageStep with
          | .error r => ⟨r, shop⟩
          | .ok imagePath =>
            let priceV := jsParseInt ((lookupAttr productData "Price").getD .null)
            let product : Item :=
              [("ID", idV),
               ("Name", (lookupAttr productData "Name").getD .null),
               ("Items", .list xs),
               ("GamingSystemID", (lookupAttr productData "GamingSystemID").getD .null),
               ("Price", priceV),
               ("ShortDescription", jsOrDefault (lookupAttr productData "ShortDescription") (.str "")),
               ("Content", jsOrDefault (lookupAttr productData "Content") (.str "")),
               ("Image", imagePath),
               ("IsArchived", jsNullish (lookupAttr productData "IsArchived") (.bool false)),
               ("IsFeatured", jsNullish (lookupAttr productData "IsFeatured") (.bool false)),
               ("GrantToNewAccounts", jsNullish (lookupAttr productData "GrantToNewAccounts") (.bool false)),
               ("CreatedAt", .str now),
               ("UpdatedAt", .str now)]
            match priceV, idV with
            | .nan, _ => ⟨⟨500, .internal "Internal Server Error" "createProduct"⟩, shop⟩
            | _, .str s =>
              if (shopGet shop s).isSome then
                ⟨⟨409, .errMsg "Product already exists"⟩, shop⟩
              else
                ⟨⟨201, .product product⟩, shop ++ [product]⟩
            | _, _ => ⟨⟨500, .internal "Internal Server Error" "createProduct"⟩, shop⟩
    | _ => ⟨⟨400, .errMsg "Items must be a non-empty array"⟩, shop⟩

/-! Helper lemmas about the attribute-map primitives. -/

theorem lookupAttr_setAttr (it : Item) (k k2 : String) (v : DVal) :
    lookupAttr (setAttr it k v) k2 = if k = k2 then some v else lookupAttr it k2 := by
  induction it with
  | nil => simp [setAttr, lookupAttr]
  | cons kv rest ih =>
    obtain ⟨k1, v1⟩ := kv
    rw [setAttr]
    by_cases h1 : k1 = k
    · rw [if_pos h1]
      by_cases h2 : k = k2 <;> simp [lookupAttr, h1, h2]
    · rw [if_neg h1]
      by_cases h2 : k1 = k2
      · have hne : ¬ k = k2 := fun hk => h1 (h2.trans hk.symm)
        simp [lookupAttr, h2, hne]
      · simp [lookupAttr, h2, ih]

theorem lookupAttr_removeAttr (it : Item) (k k2 : String) :
    lookupAttr (removeAttr it k) k2 = if k = k2 then none else lookupAttr it k2 := by
  induction it with
  | nil => simp [removeAttr, lookupAttr]
  | cons kv rest ih =>
    obtain ⟨k1, v1⟩ := kv
    rw [removeAttr, List.filter_cons]
    by_cases h1 : k1 = k
    · have hcond : ((k1, v1).1 != k) = false := by simp [h1]
      rw [hcond]
      simp only [Bool.false_eq_true, if_false]
      rw [← removeAttr, ih]
      by_cases h2 : k = k2
      · simp [h2]
      · have : ¬ k1 = k2 := fun hk => h2 (h1.symm.trans hk)
        simp [lookupAttr, h2, this]
    · have hcond : ((k1, v1).1 != k) = true := by simp [h1]
      rw [hcond]
      simp only [if_true]
      rw [lookupAttr, lookupAttr, ← removeAttr, ih]
      by_cases h2 : k1 = k2
      · have hne : ¬ k = k2 := fun hk => h1 (h2.trans hk.symm)
        simp [h2, hne]
      · simp [h2]

theorem lookupAttr_eq_none_of_not_mem {it : Item} {k : String}
    (h : k ∉ it.map Prod.fst) : lookupAttr it k = none := by
  induction it with
  | nil => rfl
  | cons kv rest ih =>
    obtain ⟨k1, v1⟩ := kv
    rw [List.map_cons, List.mem_cons, not_or] at h
    rw [lookupAttr, if_neg (fun hk : k1 = k => h.1 hk.symm)]
    exact ih h.2

theorem lookupAttr_applyPatch_none (patch : Item) (it : Item) (k : String)
    (h : lookupAttr patch k = none) :
    lookupAttr (applyPatch it patch) k = lookupAttr it k := by
  induction patch generalizing it with
  | nil => rfl
  | cons kv rest ih =>
    obtain ⟨k1, v1⟩ := kv
    by_cases h1 : k1 = k
    · rw [lookupAttr, if_pos h1] at h
      cases h
    · rw [lookupAttr, if_neg h1] at h
      rw [applyPatch, ih (setAttr it k1 v1) h, lookupAttr_setAttr]
      simp [h1]

theorem lookupAttr_applyPatch_some (patch : Item) (it : Item) (k : String) (v : DVal)
    (hnd : (patch.map Prod.fst).Nodup) (h : lookupAttr patch k = some v) :
    lookupAttr (applyPatch it patch) k = some v := by
  induction patch generalizing it with
  | nil => cases h
  | cons kv rest ih =>
    obtain ⟨k1, v1⟩ := kv
    rw [List.map_cons, List.nodup_cons] at hnd
    by_cases h1 : k1 = k
    · rw [lookupAttr, if_pos h1] at h
      have hr : lookupAttr rest k = none :=
        lookupAttr_eq_none_of_not_mem (h1 ▸ hnd.1)
      rw [applyPatch, lookupAttr_applyPatch_none rest _ _ hr, lookupAttr_setAttr]
      rw [if_pos h1]
      exact h
    · rw [lookupAttr, if_neg h1] at h
      rw [applyPatch]
      exact ih (setAttr it k1 v1) hnd.2 h

theorem mem_keys_setAttr {it : Item} {k m : String} {v : DVal} :
    m ∈ (setAttr it k v).map Prod.fst ↔ m ∈ it.map Prod.fst ∨ m = k := by
  induction it with
  | nil => simp [setAttr]
  | cons kv rest ih =>
    obtain ⟨k1, v1⟩ := kv
    by_cases h : k1 = k
    · rw [setAttr, if_pos h, List.map_cons, List.map_cons, List.mem_cons]
      constructor
      · exact fun hc => Or.inl hc
      · intro hc
        rcases hc with hc | hc
        · exact hc
        · exact Or.inl (hc.trans h.symm)
    · rw [setAttr, if_neg h, List.map_cons, List.map_cons, List.mem_cons, List.mem_cons, ih]
      tauto

theorem nodup_keys_setAttr {it : Item} {k : String} {v : DVal}
    (h : (it.map Prod.fst).Nodup) : ((setAttr it k v).map Prod.fst).Nodup := by
  induction it with
  | nil => simp [setAttr]
  | cons kv rest ih =>
    obtain ⟨k1, v1⟩ := kv
    rw [List.map_cons, List.nodup_cons] at h
    by_cases hk : k1 = k
    · subst hk
      rw [setAttr, if_pos rfl, List.map_cons, List.nodup_cons]
      exact h
    · rw [setAttr, if_neg hk, List.map_cons, List.nodup_cons]
      refine ⟨?_, ih h.2⟩
      intro hmem
      rcases mem_keys_setAttr.mp hmem with h1 | h1
      · exact h.1 h1
      · exact hk h1

theorem nodup_keys_removeAttr {it : Item} {k : String}
    (h : (it.map Prod.fst).Nodup) : ((removeAttr it k).map Prod.fst).Nodup :=
  ((List.filter_sublist it).map Prod.fst).nodup h

/-! Helper lemmas about the two paginated scans of the delete guard. -/

theorem mem_scanAccountsPage {gamingSystemId id : String} {page : List Item}
    {l : List AccountRef} (h : scanAccountsPage gamingSystemId id page = .ok l)
    {a : Item} (ha : a ∈ page) (hb : accountBlocks gamingSystemId id a = .ok true) :
    accountRefOf a ∈ l := by
  induction page generalizing l with
  | nil => cases ha
  | cons b rest ih =>
    cases hab : accountBlocks gamingSystemId id b with
    | error e => simp [scanAccountsPage, hab] at h
    | ok bb =>
      cases hrest : scanAccountsPage gamingSystemId id rest with
      | error e => simp [scanAccountsPage, hab, hrest] at h
      | ok tail =>
        simp only [scanAccountsPage, hab, hrest] at h
        injection h with h
        rcases List.mem_cons.mp ha with rfl | hmem
        · rw [hab] at hb
          injection hb with hb
          subst hb
          subst h
          simp
        · have htail := ih hrest hmem
          subst h
          cases bb
          · simpa using htail
          · simpa using Or.inr htail

theorem mem_scanAccountsPages {gamingSystemId id : String} {pages : List (List Item)}
    {l : List AccountRef} (h : scanAccountsPages gamingSystemId id pages = .ok l)
    {p : List Item} (hp : p ∈ pages) {a : Item} (ha : a ∈ p)
    (hb : accountBlocks gamingSystemId id a = .ok true) :
    accountRefOf a ∈ l := by
  induction pages generalizing l with
  | nil => cases hp
  | cons q ps ih =>
    cases hq : scanAccountsPage gamingSystemId id q with
    | error e => simp [scanAccountsPages, hq] at h
    | ok xs =>
      cases hps : scanAccountsPages gamingSystemId id ps with
      | error e => simp [scanAccountsPages, hq, hps] at h
      | ok ys =>
        simp only [scanAccountsPages, hq, hps] at h
        injection h with h
        subst h
        rcases List.mem_cons.mp hp with rfl | hmem
        · exact List.mem_append_left _ (mem_scanAccountsPage hq ha hb)
        · exact List.mem_append_right _ (ih hps hmem)

theorem mem_scanSystemsPages {id : String} {pages : List (List Item)}
    {p : List Item} (hp : p ∈ pages) {s : Item} (hs : s ∈ p)
    (hm : systemMatches id s = true) :
    systemRefOf s ∈ scanSystemsPages id pages := by
  induction pages with
  | nil => cases hp
  | cons q ps ih =>
    rw [scanSystemsPages]
    rcases List.mem_cons.mp hp with rfl | hmem
    · exact List.mem_append_left _ (List.mem_map_of_mem _ (List.mem_filter.mpr ⟨hs, hm⟩))
    · exact List.mem_append_right _ (ih hmem)

theorem shopGet_shopErase (shop : List Item) (id : String) :
    shopGet (shopErase shop id) id = none := by
  rw [shopGet, List.find?_eq_none]
  intro it hit
  have h2 := (List.mem_filter.mp hit).2
  simp only [Bool.not_eq_true'] at h2
  simp [h2]

/-! Helper lemmas about joinSep (JavaScript Array.join). -/

theorem joinSep_cons_eq (sep x : String) (l : List String) :
    ∃ t, joinSep sep (x :: l) = x ++ t := by
  cases l with
  | nil => exact ⟨"", by rw [joinSep, String.append_empty]⟩
  | cons y ys => exact ⟨sep ++ joinSep sep (y :: ys), by rw [joinSep, String.append_assoc]⟩

theorem joinSep_infix_of_mem (sep x : String) (l : List String) (h : x ∈ l) :
    ∃ p q, joinSep sep l = p ++ x ++ q := by
  induction l with
  | nil => cases h
  | cons y ys ih =>
    rcases List.mem_cons.mp h with rfl | hmem
    · obtain ⟨t, ht⟩ := joinSep_cons_eq sep x ys
      exact ⟨"", t, by rw [ht, String.empty_append]⟩
    · obtain ⟨p, q, hpq⟩ := ih hmem
      cases ys with
      | nil => cases hmem
      | cons z zs =>
        refine ⟨y ++ sep ++ p, q, ?_⟩
        rw [joinSep, hpq]
        simp [String.append_assoc]

/-! Branch characterizations of deleteProduct. -/

theorem deleteProduct_conflict_eq (id : String) (db : Db) (s : List Item)
    (product : Item) (hg : shopGet db.shop id = some product)
    (accs : List AccountRef)
    (hs : scanAccountsPages (jsKey (lookupAttr product "GamingSystemID")) id
        db.accountsPages = .ok accs)
    (hc : accs.length > 0 ∨ (scanSystemsPages id db.gamingSystemsPages).length > 0) :
    deleteProduct id db s =
      ⟨⟨409, .conflictDelete "Cannot delete product"
          (joinSep " " (conflictErrors (scanSystemsPages id db.gamingSystemsPages) accs))
          accs (scanSystemsPages id db.gamingSystemsPages)⟩, s,
        db.accountsPages, db.gamingSystemsPages, false, false⟩ := by
  simp only [deleteProduct, hg, hs]
  rw [if_pos hc]

theorem deleteProduct_success_eq (id : String) (db : Db) (s : List Item)
    (product : Item) (hg : shopGet db.shop id = some product)
    (accs : List AccountRef)
    (hs : scanAccountsPages (jsKey (lookupAttr product "GamingSystemID")) id
        db.accountsPages = .ok accs)
    (hc : ¬ (accs.length > 0 ∨ (scanSystemsPages id db.gamingSystemsPages).length > 0))
    (removed : Item) (hd : shopGet s id = some removed) :
    deleteProduct id db s =
      ⟨⟨200, .deleted "Product deleted successfully" removed⟩, shopErase s id,
        db.accountsPages, db.gamingSystemsPages, true, true⟩ := by
  simp only [deleteProduct, hg, hs, hd]
  rw [if_neg hc]

theorem deleteProduct_refused_inv (id : String) (db : Db) (s : List Item)
    (h : (deleteProduct id db s).resp.statusCode = 409) :
    (deleteProduct id db s).shopAfter = s ∧
    (deleteProduct id db s).accountsAfter = db.accountsPages ∧
    (deleteProduct id db s).gamingSystemsAfter = db.gamingSystemsPages ∧
    (deleteProduct id db s).deleteIssued = false ∧
    (deleteProduct id db s).cleanupCalled = false := by
  cases hg : shopGet db.shop id with
  | none => simp [deleteProduct, hg] at h
  | some product =>
    cases hs : scanAccountsPages (jsKey (lookupAttr product "GamingSystemID")) id
        db.accountsPages with
    | error e => simp [deleteProduct, hg, hs] at h
    | ok accs =>
      by_cases hc : accs.length > 0 ∨ (scanSystemsPages id db.gamingSystemsPages).length > 0
      · rw [deleteProduct_conflict_eq id db s product hg accs hs hc]
        exact ⟨rfl, rfl, rfl, rfl, rfl⟩
      · exfalso
        cases hd : shopGet s id with
        | none =>
          simp only [deleteProduct, hg, hs, hd] at h
          rw [if_neg hc] at h
          cases h
        | some removed =>
          rw [deleteProduct_success_eq id db s product hg accs hs hc removed hd] at h
          cases h

/-! Claim theorems. -/

/-- C1: for every catalog item whose ID appears in at least one account's
entitlement (Access) list under the item's owning gaming system, deleteProduct
returns status 409 and that account (its ID and Email) appears in the
accounts blocker list of the response body.  (The Accounts scan must complete,
which the hypothesis naming its result expresses.) -/
theorem deleteProduct_entitled_account_blocks (id : String) (db : Db) (s : List Item)
    (product : Item) (hprod : shopGet db.shop id = some product)
    (gs : String) (hgs : lookupAttr product "GamingSystemID" = some (.str gs))
    (accs : List AccountRef)
    (hscan : scanAccountsPages gs id db.accountsPages = .ok accs)
    (page : List Item) (hpage : page ∈ db.accountsPages)
    (account : Item) (haccount : account ∈ page)
    (m : List (String × DVal)) (hacc : lookupAttr account "Access" = some (.map m))
    (xs : List DVal) (hentry : lookupAttr m gs = some (.list xs))
    (hin : DVal.str id ∈ xs)
    (aid em : DVal) (haid : lookupAttr account "ID" = some aid)
    (hem : lookupAttr account "Email" = some em) :
    (deleteProduct id db s).resp.statusCode = 409 ∧
    (deleteProduct id db s).resp.body =
      .conflictDelete "Cannot delete product"
        (joinSep " " (conflictErrors (scanSystemsPages id db.gamingSystemsPages) accs))
        accs (scanSystemsPages id db.gamingSystemsPages) ∧
    AccountRef.mk (some aid) (some em) ∈ accs := by
  have hjs : jsKey (lookupAttr product "GamingSystemID") = gs := by rw [hgs]; rfl
  have hblock : accountBlocks gs id account = .ok true := by
    simp only [accountBlocks, hacc, truthy, propGet, hentry, jsIncludes, if_true]
    congr 1
    rw [List.any_eq_true]
    exact ⟨.str id, hin, by simp⟩
  have hmem0 := mem_scanAccountsPages hscan hpage haccount hblock
  have hmem : AccountRef.mk (some aid) (some em) ∈ accs := by
    rw [accountRefOf, haid, hem] at hmem0
    exact hmem0
  have hlen : accs.length > 0 := List.length_pos.mpr (List.ne_nil_of_mem hmem)
  rw [deleteProduct_conflict_eq id db s product hprod accs (by rw [hjs]; exact hscan)
    (Or.inl hlen)]
  exact ⟨rfl, rfl, hmem⟩

/-- Witness data: a catalog item, a blocking account and a dependent system. -/
def prodW : Item := [("ID", DVal.str "p1"), ("GamingSystemID", DVal.str "gs1")]

def acctW : Item :=
  [("ID", DVal.str "a1"), ("Email", DVal.str "a1@example.com"),
   ("Access", DVal.map [("gs1", DVal.list [DVal.str "p1"])])]

def sysW : Item :=
  [("ID", DVal.str "s1"), ("Name", DVal.str "SystemOne"),
   ("RequiredShopItem", DVal.str "p1")]

def dbW1 : Db := ⟨[prodW], [[acctW]], []⟩

/-- Witness for C1 at the concrete database dbW1. -/
theorem deleteProduct_entitled_account_blocks_witness :
    (deleteProduct "p1" dbW1 [prodW]).resp.statusCode = 409 ∧
    (deleteProduct "p1" dbW1 [prodW]).resp.body =
      .conflictDelete "Cannot delete product"
        (joinSep " " (conflictErrors (scanSystemsPages "p1" dbW1.gamingSystemsPages)
          [accountRefOf acctW]))
        [accountRefOf acctW] (scanSystemsPages "p1" dbW1.gamingSystemsPages) ∧
    AccountRef.mk (some (DVal.str "a1")) (some (DVal.str "a1@example.com")) ∈
      [accountRefOf acctW] :=
  deleteProduct_entitled_account_blocks "p1" dbW1 [prodW] prodW rfl "gs1" rfl
    [accountRefOf acctW] rfl [acctW] (List.mem_cons_self _ _) acctW (List.mem_cons_self _ _)
    [("gs1", DVal.list [DVal.str "p1"])] rfl [DVal.str "p1"] rfl (List.mem_cons_self _ _)
    (DVal.str "a1") (DVal.str "a1@example.com") rfl rfl

/-- C3: the Accounts scan of the delete guard is driven to exhaustion: for a
paginated Accounts collection whose page sequence ends in (or anywhere holds)
a page containing a blocking account, the completed scan result contains that
account and deleteProduct refuses with 409. -/
theorem deleteProduct_scan_reaches_last_page (id : String) (db : Db) (s : List Item)
    (product : Item) (hprod : shopGet db.shop id = some product)
    (gs : String) (hgs : lookupAttr product "GamingSystemID" = some (.str gs))
    (accs : List AccountRef)
    (hscan : scanAccountsPages gs id db.accountsPages = .ok accs)
    (front : List (List Item)) (lastPage : List Item)
    (hpages : db.accountsPages = front ++ [lastPage])
    (account : Item) (haccount : account ∈ lastPage)
    (hblock : accountBlocks gs id account = .ok true) :
    (deleteProduct id db s).resp.statusCode = 409 ∧
    accountRefOf account ∈ accs ∧
    (deleteProduct id db s).resp.body =
      .conflictDelete "Cannot delete product"
        (joinSep " " (conflictErrors (scanSystemsPages id db.gamingSystemsPages) accs))
        accs (scanSystemsPages id db.gamingSystemsPages) := by
  have hjs : jsKey (lookupAttr product "GamingSystemID") = gs := by rw [hgs]; rfl
  have hpagemem : lastPage ∈ db.accountsPages := by
    rw [hpages]
    exact List.mem_append_right front (List.mem_cons_self _ _)
  have hmem := mem_scanAccountsPages hscan hpagemem haccount hblock
  have hlen : accs.length > 0 := List.length_pos.mpr (List.ne_nil_of_mem hmem)
  rw [deleteProduct_conflict_eq id db s product hprod accs (by rw [hjs]; exact hscan)
    (Or.inl hlen)]
  exact ⟨rfl, hmem, rfl⟩

/-- Witness database for C3: the blocking account sits on the second (last)
page of a two-page Accounts collection. -/
def dbW3 : Db := ⟨[prodW], [[], [acctW]], []⟩

/-- Witness for C3 at the concrete two-page database dbW3. -/
theorem deleteProduct_scan_reaches_last_page_witness :
    (deleteProduct "p1" dbW3 [prodW]).resp.statusCode = 409 ∧
    accountRefOf acctW ∈ [accountRefOf acctW] ∧
    (deleteProduct "p1" dbW3 [prodW]).resp.body =
      .conflictDelete "Cannot delete product"
        (joinSep " " (conflictErrors (scanSystemsPages "p1" dbW3.gamingSystemsPages)
          [accountRefOf acctW]))
        [accountRefOf acctW] (scanSystemsPages "p1" dbW3.gamingSystemsPages) :=
  deleteProduct_scan_reaches_last_page "p1" dbW3 [prodW] prodW rfl "gs1" rfl
    [accountRefOf acctW] rfl [[]] [acctW] rfl acctW (List.mem_cons_self _ _) rfl

/-- C4: for every catalog item declared as RequiredShopItem by at least one
gaming system, deleteProduct returns 409, that system appears in the
gamingSystems blocker list, and its Name appears inside the combined blocker
message, whatever the (successfully scanned) entitlement state of the
Accounts collection. -/
theorem deleteProduct_required_system_blocks (id : String) (db : Db) (s : List Item)
    (product : Item) (hprod : shopGet db.shop id = some product)
    (accs : List AccountRef)
    (hscan : scanAccountsPages (jsKey (lookupAttr product "GamingSystemID")) id
        db.accountsPages = .ok accs)
    (page : List Item) (hpage : page ∈ db.gamingSystemsPages)
    (sys : Item) (hsys : sys ∈ page)
    (hreq : lookupAttr sys "RequiredShopItem" = some (.str id))
    (nm : String) (hnm : lookupAttr sys "Name" = some (.str nm)) :
    (deleteProduct id db s).resp.statusCode = 409 ∧
    systemRefOf sys ∈ scanSystemsPages id db.gamingSystemsPages ∧
    ∃ msg, (deleteProduct id db s).resp.body =
        .conflictDelete "Cannot delete product" msg accs
          (scanSystemsPages id db.gamingSystemsPages) ∧
      ∃ pre post, msg = pre ++ nm ++ post := by
  have hmatch : systemMatches id sys = true := by
    simp [systemMatches, hreq]
  have hmem := mem_scanSystemsPages hpage hsys hmatch
  have hlen : (scanSystemsPages id db.gamingSystemsPages).length > 0 :=
    List.length_pos.mpr (List.ne_nil_of_mem hmem)
  rw [deleteProduct_conflict_eq id db s product hprod accs hscan (Or.inr hlen)]
  refine ⟨rfl, hmem, _, rfl, ?_⟩
  have hnm2 : nm ∈ (scanSystemsPages id db.gamingSystemsPages).map
      fun r => displayName r.Name := by
    have := List.mem_map_of_mem (fun r : SystemRef => displayName r.Name) hmem
    simpa [systemRefOf, hnm, displayName, jsToStrElem] using this
  obtain ⟨p, q, hpq⟩ := joinSep_infix_of_mem ", " nm
    ((scanSystemsPages id db.gamingSystemsPages).map fun r => displayName r.Name) hnm2
  rw [conflictErrors, if_pos hlen]
  obtain ⟨t, ht⟩ := joinSep_cons_eq " "
    ("This shop item is required by the following gaming system(s): "
      ++ joinSep ", " ((scanSystemsPages id db.gamingSystemsPages).map
        fun r => displayName r.Name)
      ++ ". Remove the RequiredShopItem setting from these gaming systems before deleting.")
    (if accs.length > 0 then
      [toString accs.length
        ++ " account(s) still have access to this shop item. Remove access from these accounts before deleting."]
     else [])
  rw [List.singleton_append, ht, hpq]
  refine ⟨"This shop item is required by the following gaming system(s): " ++ p,
    q ++ (". Remove the RequiredShopItem setting from these gaming systems before deleting." ++ t),
    ?_⟩
  simp [String.append_assoc]

/-- Witness database for C4: one dependent system, no accounts. -/
def dbW4 : Db := ⟨[prodW], [[]], [[sysW]]⟩

/-- Witness for C4 at the concrete database dbW4. -/
theorem deleteProduct_required_system_blocks_witness :
    (deleteProduct "p1" dbW4 [prodW]).resp.statusCode = 409 ∧
    systemRefOf sysW ∈ scanSystemsPages "p1" dbW4.gamingSystemsPages ∧
    ∃ msg, (deleteProduct "p1" dbW4 [prodW]).resp.body =
        .conflictDelete "Cannot delete product" msg []
          (scanSystemsPages "p1" dbW4.gamingSystemsPages) ∧
      ∃ pre post, msg = pre ++ "SystemOne" ++ post :=
  deleteProduct_required_system_blocks "p1" dbW4 [prodW] prodW rfl [] rfl
    [sysW] (List.mem_cons_self _ _) sysW (List.mem_cons_self _ _) rfl "SystemOne" rfl

/-- C2: for every existing catalog item with zero matching account
entitlements (the completed Accounts scan yields the empty blocker list) and
zero gaming systems declaring it as RequiredShopItem, deleteProduct returns
200 and a subsequent getProduct of the same ID on the resulting Shop table
returns 404. -/
theorem deleteProduct_unreferenced_then_not_found (id : String) (db : Db)
    (product : Item) (hprod : shopGet db.shop id = some product)
    (hscan : scanAccountsPages (jsKey (lookupAttr product "GamingSystemID")) id
        db.accountsPages = .ok [])
    (hsys : scanSystemsPages id db.gamingSystemsPages = []) :
    (deleteProduct id db db.shop).resp.statusCode = 200 ∧
    getProduct id (deleteProduct id db db.shop).shopAfter =
      ⟨404, .errMsg "Product not found"⟩ := by
  have hnc : ¬ (([] : List AccountRef).length > 0 ∨
      (scanSystemsPages id db.gamingSystemsPages).length > 0) := by
    rw [hsys]
    simp
  rw [deleteProduct_success_eq id db db.shop product hprod [] hscan hnc product hprod]
  exact ⟨rfl, by rw [getProduct, shopGet_shopErase]⟩

/-- Witness database for C2: the item exists, nothing references it. -/
def dbW2 : Db := ⟨[prodW], [[]], [[]]⟩

/-- Witness for C2 at the concrete database dbW2. -/
theorem deleteProduct_unreferenced_then_not_found_witness :
    (deleteProduct "p1" dbW2 dbW2.shop).resp.statusCode = 200 ∧
    getProduct "p1" (deleteProduct "p1" dbW2 dbW2.shop).shopAfter =
      ⟨404, .errMsg "Product not found"⟩ :=
  deleteProduct_unreferenced_then_not_found "p1" dbW2 prodW rfl rfl rfl

/-- C5: deleting an ID absent from the Catalog collection yields 404 and
never 409, both when the absence is seen by the initial lookup and when only
the existence-conditioned DeleteCommand fails (item gone by delete time while
the guard found no blockers). -/
theorem deleteProduct_absent_404_never_409 (id : String) (db : Db) (s : List Item) :
    (shopGet db.shop id = none →
      (deleteProduct id db s).resp = ⟨404, .errMsg "Product not found"⟩ ∧
      (deleteProduct id db s).resp.statusCode ≠ 409) ∧
    (∀ product, shopGet db.shop id = some product →
      scanAccountsPages (jsKey (lookupAttr product "GamingSystemID")) id
        db.accountsPages = .ok [] →
      scanSystemsPages id db.gamingSystemsPages = [] →
      shopGet s id = none →
      (deleteProduct id db s).resp = ⟨404, .errMsg "Product not found"⟩ ∧
      (deleteProduct id db s).resp.statusCode ≠ 409) := by
  constructor
  · intro hnone
    have : deleteProduct id db s =
        ⟨⟨404, .errMsg "Product not found"⟩, s, db.accountsPages,
          db.gamingSystemsPages, false, false⟩ := by
      simp only [deleteProduct, hnone]
    rw [this]
    exact ⟨rfl, by simp⟩
  · intro product hprod hscan hsys hgone
    have hnc : ¬ (([] : List AccountRef).length > 0 ∨
        (scanSystemsPages id db.gamingSystemsPages).length > 0) := by
      rw [hsys]
      simp
    have : deleteProduct id db s =
        ⟨⟨404, .errMsg "Product not found"⟩, s, db.accountsPages,
          db.gamingSystemsPages, true, false⟩ := by
      simp only [deleteProduct, hprod, hscan, hgone]
      rw [if_neg hnc]
    rw [this]
    exact ⟨rfl, by simp⟩

/-- Witness for C5: the absent ID p9 at the lookup, and the race case where
p1 exists at lookup but the delete-time table is empty. -/
theorem deleteProduct_absent_404_never_409_witness :
    ((deleteProduct "p9" dbW2 dbW2.shop).resp = ⟨404, .errMsg "Product not found"⟩ ∧
      (deleteProduct "p9" dbW2 dbW2.shop).resp.statusCode ≠ 409) ∧
    ((deleteProduct "p1" dbW2 []).resp = ⟨404, .errMsg "Product not found"⟩ ∧
      (deleteProduct "p1" dbW2 []).resp.statusCode ≠ 409) :=
  ⟨(deleteProduct_absent_404_never_409 "p9" dbW2 dbW2.shop).1 rfl,
   (deleteProduct_absent_404_never_409 "p1" dbW2 []).2 prodW rfl rfl rfl rfl⟩

/-- C10: whenever deleteProduct refuses with 409, no DeleteCommand is issued,
the artifact cleanup does not run, and the Shop, Accounts and GamingSystems
collections are all left unchanged by the invocation. -/
theorem deleteProduct_refusal_no_writes (id : String) (db : Db) (s : List Item)
    (h : (deleteProduct id db s).resp.statusCode = 409) :
    (deleteProduct id db s).deleteIssued = false ∧
    (deleteProduct id db s).cleanupCalled = false ∧
    (deleteProduct id db s).shopAfter = s ∧
    (deleteProduct id db s).accountsAfter = db.accountsPages ∧
    (deleteProduct id db s).gamingSystemsAfter = db.gamingSystemsPages := by
  obtain ⟨h1, h2, h3, h4, h5⟩ := deleteProduct_refused_inv id db s h
  exact ⟨h4, h5, h1, h2, h3⟩

/-- Witness for C10 at the concrete database dbW1 (refusal through an
account entitlement). -/
theorem deleteProduct_refusal_no_writes_witness :
    (deleteProduct "p1" dbW1 [prodW]).deleteIssued = false ∧
    (deleteProduct "p1" dbW1 [prodW]).cleanupCalled = false ∧
    (deleteProduct "p1" dbW1 [prodW]).shopAfter = [prodW] ∧
    (deleteProduct "p1" dbW1 [prodW]).accountsAfter = dbW1.accountsPages ∧
    (deleteProduct "p1" dbW1 [prodW]).gamingSystemsAfter = dbW1.gamingSystemsPages :=
  deleteProduct_refusal_no_writes "p1" dbW1 [prodW] rfl

/-- C8: a refused delete leaves every collection unchanged, so running
deleteProduct again on the resulting state returns the very same refusal,
with the same accounts and gamingSystems blocker lists. -/
theorem deleteProduct_refusal_idempotent (id : String) (db : Db)
    (h : (deleteProduct id db db.shop).resp.statusCode = 409) :
    deleteProduct id
        ⟨(deleteProduct id db db.shop).shopAfter,
          (deleteProduct id db db.shop).accountsAfter,
          (deleteProduct id db db.shop).gamingSystemsAfter⟩
        (deleteProduct id db db.shop).shopAfter
      = deleteProduct id db db.shop := by
  obtain ⟨h1, h2, h3, _, _⟩ := deleteProduct_refused_inv id db db.shop h
  rw [h1, h2, h3]

/-- Witness for C8 at the concrete database dbW1. -/
theorem deleteProduct_refusal_idempotent_witness :
    deleteProduct "p1"
        ⟨(deleteProduct "p1" dbW1 dbW1.shop).shopAfter,
          (deleteProduct "p1" dbW1 dbW1.shop).accountsAfter,
          (deleteProduct "p1" dbW1 dbW1.shop).gamingSystemsAfter⟩
        (deleteProduct "p1" dbW1 dbW1.shop).shopAfter
      = deleteProduct "p1" dbW1 dbW1.shop :=
  deleteProduct_refusal_idempotent "p1" dbW1 rfl

/-- C6: every conditioned-write failure is translated at the boundary:
createProduct of an already-existing ID returns 409, updateProduct of a
non-existent ID returns 404, and a deleteProduct whose conditioned delete
fails returns 404; none of them surfaces a 500. -/
theorem conditional_failures_translated (shop : List Item) (genId now id : String)
    (up : Except String String) :
    (∀ (productData : Item) (pn pm : Int) (xs : List DVal) (i : String),
      truthyO (lookupAttr productData "Name") = true →
      lookupAttr productData "Price" = some (.num pn) →
      truthyO (lookupAttr productData "GamingSystemID") = true →
      lookupAttr productData "Items" = some (.list xs) →
      xs ≠ [] →
      validateItems xs = .ok none →
      truthyO (lookupAttr productData "imageBase64") = false →
      lookupAttr productData "ID" = some (.str i) →
      i ≠ "" →
      jsParseInt (DVal.num pn) = DVal.num pm →
      (shopGet shop i).isSome = true →
      (createProduct productData shop genId now up).resp =
        ⟨409, .errMsg "Product already exists"⟩ ∧
      (createProduct productData shop genId now up).shopAfter = shop) ∧
    (∀ updateData : Item,
      truthyO (lookupAttr updateData "imageBase64") = false →
      shopGet shop id = none →
      (updateProduct id updateData shop now up).resp =
        ⟨404, .errMsg "Product not found"⟩ ∧
      (updateProduct id updateData shop now up).shopAfter = shop) ∧
    (∀ (db : Db) (s : List Item) (product : Item),
      shopGet db.shop id = some product →
      scanAccountsPages (jsKey (lookupAttr product "GamingSystemID")) id
        db.accountsPages = .ok [] →
      scanSystemsPages id db.gamingSystemsPages = [] →
      shopGet s id = none →
      (deleteProduct id db s).resp = ⟨404, .errMsg "Product not found"⟩) := by
  refine ⟨?_, ?_, ?_⟩
  · intro productData pn pm xs i hName hPrice hGS hItems hxs hval hImg hID hi hparse hdup
    have hlen : (xs.length == 0) = false := by
      cases xs with
      | nil => exact absurd rfl hxs
      | cons a l => rfl
    have htr : truthy (DVal.str i) = true := by simp [truthy, hi]
    have hItemsTruthy : truthyO (some (DVal.list xs)) = true := rfl
    constructor <;>
      simp [createProduct, hName, hPrice, hGS, hItems, hItemsTruthy, hlen, hval, hImg,
        hID, htr, jsOrDefault, hparse, hdup]
  · intro updateData himg hnone
    constructor <;> simp [updateProduct, himg, hnone]
  · intro db s product hprod hscan hsys hgone
    have hnc : ¬ (([] : List AccountRef).length > 0 ∨
        (scanSystemsPages id db.gamingSystemsPages).length > 0) := by
      rw [hsys]
      simp
    have heq : deleteProduct id db s =
        ⟨⟨404, .errMsg "Product not found"⟩, s, db.accountsPages,
          db.gamingSystemsPages, true, false⟩ := by
      simp only [deleteProduct, hprod, hscan, hgone]
      rw [if_neg hnc]
    rw [heq]

/-- Witness data for C6. -/
def bodyW6 : Item :=
  [("ID", DVal.str "dup1"), ("Name", DVal.str "N"), ("Price", DVal.num 100),
   ("GamingSystemID", DVal.str "gs1"),
   ("Items", DVal.list [DVal.map [("Type", DVal.str "Classes")]])]

def shopW6 : List Item := [[("ID", DVal.str "dup1")]]

def prodZ : Item := [("ID", DVal.str "zz"), ("GamingSystemID", DVal.str "gs1")]

def dbZ : Db := ⟨[prodZ], [[]], [[]]⟩

/-- Witness for C6: a duplicate create, an update of a missing ID, and a
delete whose conditioned DeleteCommand fails. -/
theorem conditional_failures_translated_witness :
    ((createProduct bodyW6 shopW6 "gen" "t1" (.ok "img")).resp =
        ⟨409, .errMsg "Product already exists"⟩ ∧
      (createProduct bodyW6 shopW6 "gen" "t1" (.ok "img")).shopAfter = shopW6) ∧
    ((updateProduct "zz" [("Name", DVal.str "New")] shopW6 "t1" (.ok "img")).resp =
        ⟨404, .errMsg "Product not found"⟩ ∧
      (updateProduct "zz" [("Name", DVal.str "New")] shopW6 "t1" (.ok "img")).shopAfter =
        shopW6) ∧
    (deleteProduct "zz" dbZ []).resp = ⟨404, .errMsg "Product not found"⟩ :=
  ⟨(conditional_failures_translated shopW6 "gen" "t1" "zz" (.ok "img")).1 bodyW6 100 100
      [DVal.map [("Type", DVal.str "Classes")]] "dup1" rfl rfl rfl rfl
      (List.cons_ne_nil _ _) rfl rfl rfl (by decide) rfl rfl,
   (conditional_failures_translated shopW6 "gen" "t1" "zz" (.ok "img")).2.1
      [("Name", DVal.str "New")] rfl rfl,
   (conditional_failures_translated shopW6 "gen" "t1" "zz" (.ok "img")).2.2 dbZ [] prodZ
      rfl rfl rfl rfl⟩

/-- Counterexample data for C7: the Access entry for the owning system is a
number, a value with no includes method. -/
def acctMalformed : Item :=
  [("ID", DVal.str "a1"), ("Email", DVal.str "a1@example.com"),
   ("Access", DVal.map [("gs1", DVal.num 1)])]

def dbMalformed : Db := ⟨[prodW], [[acctMalformed]], []⟩

/-- C7 counterexample: an account record whose Access entry for the owning
system is a number (a malformed entitlement field) makes the loop body throw
(accessMap[gamingSystemId].includes is not a function), so the scan fails and
deleteProduct answers 500, instead of treating the record as having no
relation. -/
theorem deleteProduct_malformed_access_throws :
    accountBlocks "gs1" "p1" acctMalformed = .error () ∧
    (deleteProduct "p1" dbMalformed dbMalformed.shop).resp.statusCode = 500 :=
  ⟨rfl, rfl⟩

/-- C7 (amended): an account record whose Access field is missing, falsy, has
no entry (or a falsy entry) for the owning system, or whose entry is an array
not containing the item's ID, is treated as having no relation and does not
fail the scan; a system record whose RequiredShopItem is missing or is not
the item's ID is likewise excluded.  (An entry that is a truthy non-array
non-string value instead throws, see the counterexample.) -/
theorem malformed_records_excluded (gs id : String) (a sys : Item) :
    (lookupAttr a "Access" = none → accountBlocks gs id a = .ok false) ∧
    (∀ access, lookupAttr a "Access" = some access → truthy access = false →
      accountBlocks gs id a = .ok false) ∧
    (∀ m, lookupAttr a "Access" = some (.map m) → lookupAttr m gs = none →
      accountBlocks gs id a = .ok false) ∧
    (∀ m entry, lookupAttr a "Access" = some (.map m) → lookupAttr m gs = some entry →
      truthy entry = false → accountBlocks gs id a = .ok false) ∧
    (∀ m xs, lookupAttr a "Access" = some (.map m) → lookupAttr m gs = some (.list xs) →
      DVal.str id ∉ xs → accountBlocks gs id a = .ok false) ∧
    (lookupAttr sys "RequiredShopItem" = none → systemMatches id sys = false) ∧
    (∀ v, lookupAttr sys "RequiredShopItem" = some v →
      (∀ t, v = DVal.str t → t ≠ id) → systemMatches id sys = false) := by
  refine ⟨?_, ?_, ?_, ?_, ?_, ?_, ?_⟩
  · intro h
    simp [accountBlocks, h]
  · intro access h htr
    simp [accountBlocks, h, htr]
  · intro m h hm
    have haccess : truthy (DVal.map m) = true := rfl
    simp [accountBlocks, h, haccess, propGet, hm]
  · intro m entry h hm htr
    have haccess : truthy (DVal.map m) = true := rfl
    simp [accountBlocks, h, haccess, propGet, hm, htr]
  · intro m xs h hm hnotin
    have haccess : truthy (DVal.map m) = true := rfl
    have hentry : truthy (DVal.list xs) = true := rfl
    simp only [accountBlocks, h, haccess, hentry, propGet, hm, jsIncludes, if_true]
    congr 1
    rw [List.any_eq_false]
    intro v hv
    rcases v with _ | _ | b | n | t | l | mm <;> simp
    intro ht
    exact hnotin (ht ▸ hv)
  · intro h
    simp [systemMatches, h]
  · intro v hv hvne
    rw [systemMatches, hv]
    rcases v with _ | _ | b | n | t | l | mm
    · rfl
    · rfl
    · rfl
    · rfl
    · simp [hvne t rfl]
    · rfl
    · rfl

/-- Benign witness records for the amended C7. -/
def acctNoAccess : Item := [("ID", DVal.str "a3"), ("Email", DVal.str "a3@example.com")]

def acctOtherSystem : Item :=
  [("ID", DVal.str "a4"), ("Email", DVal.str "a4@example.com"),
   ("Access", DVal.map [("gs9", DVal.list [DVal.str "p1"])])]

def sysNoReq : Item := [("ID", DVal.str "s3"), ("Name", DVal.str "Bare")]

/-- Witness for the amended C7: records with a missing Access attribute, an
entry under another system only, or a missing RequiredShopItem are excluded
without failing. -/
theorem malformed_records_excluded_witness :
    accountBlocks "gs1" "p1" acctNoAccess = .ok false ∧
    accountBlocks "gs1" "p1" acctOtherSystem = .ok false ∧
    systemMatches "p1" sysNoReq = false :=
  ⟨(malformed_records_excluded "gs1" "p1" acctNoAccess sysNoReq).1 rfl,
   (malformed_records_excluded "gs1" "p1" acctOtherSystem sysNoReq).2.2.1
      [("gs9", DVal.list [DVal.str "p1"])] rfl rfl,
   (malformed_records_excluded "gs1" "p1" acctNoAccess sysNoReq).2.2.2.2.2.1 rfl⟩

/-- Counterexample data for C9: a stored item and a patch body supplying only
the image-metadata field imageFilename. -/
def prodC9 : Item := [("ID", DVal.str "p1"), ("CreatedAt", DVal.str "t0"), ("Name", DVal.str "Old")]

def bodyC9 : Item := [("imageFilename", DVal.str "x")]

/-- C9 counterexample: the body supplies imageFilename = x, yet updateProduct
(without imageBase64) deletes that key before building the update expression,
so the stored record does not receive it: a supplied field that is not set to
its new value. -/
theorem updateProduct_drops_supplied_image_meta :
    lookupAttr bodyC9 "imageFilename" = some (DVal.str "x") ∧
    (updateProduct "p1" bodyC9 [prodC9] "t1" (.ok "img")).resp =
      ⟨200, .product [("ID", DVal.str "p1"), ("CreatedAt", DVal.str "t0"),
        ("Name", DVal.str "Old"), ("UpdatedAt", DVal.str "t1")]⟩ ∧
    lookupAttr [("ID", DVal.str "p1"), ("CreatedAt", DVal.str "t0"),
        ("Name", DVal.str "Old"), ("UpdatedAt", DVal.str "t1")] "imageFilename" = none :=
  ⟨rfl, rfl, rfl⟩

/-- C9 (amended): for an existing item and a partial-update body (without a
truthy imageBase64, and with the unique keys a JSON object guarantees),
updateProduct answers 200 with the new record and writes it back; the record
keeps the stored ID and CreatedAt, carries UpdatedAt = now, receives every
other supplied field at its new value except the stripped image-metadata keys
imageFilename and imageType (a supplied falsy imageBase64 is not stripped by
the else branch and is written like any other field, which the set-field
conjunct covers), and keeps every unsupplied attribute other than UpdatedAt
unchanged. -/
theorem updateProduct_patch_semantics (id : String) (body : Item) (shop : List Item)
    (now : String) (up : Except String String)
    (hnd : (body.map Prod.fst).Nodup)
    (himg : truthyO (lookupAttr body "imageBase64") = false)
    (item : Item) (hitem : shopGet shop id = some item) :
    ∃ newItem,
      (updateProduct id body shop now up).resp = ⟨200, .product newItem⟩ ∧
      (updateProduct id body shop now up).shopAfter = shopReplace shop id newItem ∧
      lookupAttr newItem "ID" = lookupAttr item "ID" ∧
      lookupAttr newItem "CreatedAt" = lookupAttr item "CreatedAt" ∧
      lookupAttr newItem "UpdatedAt" = some (.str now) ∧
      (∀ k v, lookupAttr body k = some v →
        k ≠ "ID" → k ≠ "CreatedAt" → k ≠ "UpdatedAt" →
        k ≠ "imageFilename" → k ≠ "imageType" →
        lookupAttr newItem k = some v) ∧
      (∀ k, lookupAttr body k = none → k ≠ "UpdatedAt" →
        lookupAttr newItem k = lookupAttr item k) := by
  have hpatchEq :
      ∀ k, lookupAttr (setAttr (removeAttr (removeAttr
          (removeAttr (removeAttr body "imageFilename") "imageType") "ID") "CreatedAt")
          "UpdatedAt" (.str now)) k =
        if "UpdatedAt" = k then some (.str now)
        else if "CreatedAt" = k then none
        else if "ID" = k then none
        else if "imageType" = k then none
        else if "imageFilename" = k then none
        else lookupAttr body k := by
    intro k
    rw [lookupAttr_setAttr, lookupAttr_removeAttr, lookupAttr_removeAttr,
      lookupAttr_removeAttr, lookupAttr_removeAttr]
  have hndpatch : ((setAttr (removeAttr (removeAttr
      (removeAttr (removeAttr body "imageFilename") "imageType") "ID") "CreatedAt")
      "UpdatedAt" (DVal.str now)).map Prod.fst).Nodup :=
    nodup_keys_setAttr (nodup_keys_removeAttr (nodup_keys_removeAttr
      (nodup_keys_removeAttr (nodup_keys_removeAttr hnd))))
  refine ⟨applyPatch item (setAttr (removeAttr (removeAttr
      (removeAttr (removeAttr body "imageFilename") "imageType") "ID") "CreatedAt")
      "UpdatedAt" (.str now)), ?_, ?_, ?_, ?_, ?_, ?_, ?_⟩
  · simp [updateProduct, himg, hitem]
  · simp [updateProduct, himg, hitem]
  · refine lookupAttr_applyPatch_none _ _ _ ?_
    rw [hpatchEq "ID"]
    simp
  · refine lookupAttr_applyPatch_none _ _ _ ?_
    rw [hpatchEq "CreatedAt"]
    simp
  · refine lookupAttr_applyPatch_some _ _ _ _ hndpatch ?_
    rw [hpatchEq "UpdatedAt"]
    simp
  · intro k v hbk h1 h2 h3 h5 h6
    refine lookupAttr_applyPatch_some _ _ _ _ hndpatch ?_
    rw [hpatchEq k, if_neg (fun hc => h3 hc.symm), if_neg (fun hc => h2 hc.symm),
      if_neg (fun hc => h1 hc.symm), if_neg (fun hc => h6 hc.symm),
      if_neg (fun hc => h5 hc.symm)]
    exact hbk
  · intro k hbk hkU
    refine lookupAttr_applyPatch_none _ _ _ ?_
    rw [hpatchEq k, if_neg (fun hc => hkU hc.symm)]
    split_ifs <;> first | rfl | exact hbk

/-- Witness for the amended C9: patching prodC9 with a new Name. -/
theorem updateProduct_patch_semantics_witness :
    ∃ newItem,
      (updateProduct "p1" [("Name", DVal.str "New")] [prodC9] "t1" (.ok "img")).resp =
        ⟨200, .product newItem⟩ ∧
      (updateProduct "p1" [("Name", DVal.str "New")] [prodC9] "t1" (.ok "img")).shopAfter =
        shopReplace [prodC9] "p1" newItem ∧
      lookupAttr newItem "ID" = lookupAttr prodC9 "ID" ∧
      lookupAttr newItem "CreatedAt" = lookupAttr prodC9 "CreatedAt" ∧
      lookupAttr newItem "UpdatedAt" = some (.str "t1") ∧
      (∀ k v, lookupAttr [("Name", DVal.str "New")] k = some v →
        k ≠ "ID" → k ≠ "CreatedAt" → k ≠ "UpdatedAt" →
        k ≠ "imageFilename" → k ≠ "imageType" →
        lookupAttr newItem k = some v) ∧
      (∀ k, lookupAttr [("Name", DVal.str "New")] k = none → k ≠ "UpdatedAt" →
        lookupAttr newItem k = lookupAttr prodC9 k) :=
  updateProduct_patch_semantics "p1" [("Name", DVal.str "New")] [prodC9] "t1" (.ok "img")
    (by simp) rfl prodC9 rfl
